import Mathlib

/-!
Verification of the process-lifecycle core of src/lib/monkey/mk_core/mk_utils.c:
daemonization (mk_utils_set_daemon) and the PID-file guard
(mk_utils_register_pid / mk_utils_remove_pid).

The embedding is a shallow one.  The filesystem is modelled at inode
granularity, because the C code manipulates the pid file through POSIX calls
whose semantics are per inode, not per path: unlink removes only the directory
entry, open with O_CREAT on a now-missing path allocates a fresh inode, and
fcntl record locks attach to an (inode, process) pair and are released when the
process closes any descriptor for that inode.  OS calls that can fail for
reasons outside the modelled state (stat, unlink, open, fcntl, write, fork,
chdir) take explicit fault flags.  Logging is modelled as a list of events
mirroring the mk_err / mk_warn / mk_info calls in the C, and process
termination as an explicit outcome value.
-/

namespace MkCore

/-- Log events, one per mk_err / mk_warn / mk_info call site in mk_utils.c. -/
inductive LogEvent
  | errCannotRemoveOldPid
  | errCannotOpenPidFile
  | errCannotSetLock
  | errCannotWritePid
  | warnCannotDeletePidfile
  | infoBackgroundModeOn
  | errForkFailed
  | errChdirFailed
deriving DecidableEq

/-- How a modelled run of a C function ends: a normal return value, or a call
to exit with the given status code. -/
inductive Outcome
  | ret (v : Int)
  | exit (code : Nat)
deriving DecidableEq

/-- An inode: its byte content and the permission mode it was created with. -/
structure Inode where
  content : List Char
  mode : Nat
deriving DecidableEq

/-- Filesystem and lock-table state around the single pid-file path.
Inode number i is position i of the inodes list; creation appends.  The
dirent field is the inode currently linked at the path, if any.  The locks
list holds (inode, process) pairs for advisory exclusive write locks, and fds
holds (process, inode) pairs for open file descriptors. -/
structure Sys where
  inodes : List Inode
  dirent : Option Nat
  locks : List (Nat × Nat)
  fds : List (Nat × Nat)
deriving DecidableEq

/-- A state is well formed when every lock and every open descriptor refers to
an inode that has actually been allocated. -/
def sysWf (s : Sys) : Bool :=
  s.locks.all (fun l => decide (l.1 < s.inodes.length)) &&
  s.fds.all (fun f => decide (f.2 < s.inodes.length))

/-- The empty filesystem: no file at the path, no locks, no open descriptors. -/
def sysEmpty : Sys := ⟨[], none, [], []⟩

/-- Modelled stat on the pid-file path: returns 0 (here true) exactly when the
file exists and the call itself does not fail. -/
def statExists (ok : Bool) (s : Sys) : Bool :=
  s.dirent.isSome && ok

/-- Modelled unlink: removes the directory entry only; the inode, its content,
any open descriptors and any record locks on it are untouched. -/
def unlinkPath (s : Sys) : Sys :=
  { s with dirent := none }

/-- Modelled open with O_WRONLY, O_CREAT and the given mode: if a file is
linked at the path it is opened (no truncation); otherwise a fresh empty inode
with the given mode is allocated and linked.  Returns the new state and the
inode the returned descriptor refers to. -/
def openCreate (pid mode : Nat) (s : Sys) : Sys × Nat :=
  match s.dirent with
  | some i => ({ s with fds := s.fds ++ [(pid, i)] }, i)
  | none =>
      let i := s.inodes.length
      ({ s with inodes := s.inodes ++ [⟨[], mode⟩],
                dirent := some i,
                fds := s.fds ++ [(pid, i)] }, i)

/-- Whether some process other than pid holds a record lock on inode ino. -/
def heldByOther (pid ino : Nat) (locks : List (Nat × Nat)) : Bool :=
  locks.any (fun l => l.1 == ino && l.2 != pid)

/-- Modelled fcntl F_SETLK with l_type = F_WRLCK over the whole file: a
non-blocking request that fails immediately, leaving the state unchanged, when
another process holds a lock on the inode or when the call itself fails
(the ok flag covers exogenous failures such as an exhausted lock table);
otherwise the lock is recorded. -/
def fcntlSetlk (pid ino : Nat) (ok : Bool) (s : Sys) : Bool × Sys :=
  if heldByOther pid ino s.locks then (false, s)
  else if !ok then (false, s)
  else (true, { s with locks := s.locks ++ [(ino, pid)] })

/-- Modelled write on a freshly opened descriptor (offset 0): n is the number
of bytes the call reports transferred; min n data.length bytes of data replace
the front of the inode content. -/
def writeFd (ino : Nat) (data : List Char) (n : Nat) (s : Sys) : Sys :=
  match s.inodes[ino]? with
  | none => s
  | some nd =>
      let w := min n data.length
      { s with inodes := s.inodes.set ino ⟨data.take w ++ nd.content.drop w, nd.mode⟩ }

/-- Modelled close: removes the descriptor and, per POSIX record-lock
semantics, releases every lock the process holds on that inode. -/
def closeFd (pid ino : Nat) (s : Sys) : Sys :=
  { s with fds := s.fds.erase (pid, ino),
           locks := s.locks.filter (fun l => !(l.1 == ino && l.2 == pid)) }

/-- Fault flags for one run of mk_utils_register_pid: whether stat, unlink and
open succeed, whether the fcntl lock call fails for an exogenous reason, and
the byte count the write call reports (none means the full requested length). -/
structure Faults where
  statOk : Bool
  unlinkOk : Bool
  openOk : Bool
  lockOk : Bool
  writeRet : Option Nat
deriving DecidableEq

/-- The fault-free run: every OS call behaves normally. -/
def faultsOk : Faults := ⟨true, true, true, true, none⟩

/-- Result of a modelled run: final state, emitted log events, and outcome. -/
structure RunResult where
  sys : Sys
  log : List LogEvent
  out : Outcome
deriving DecidableEq

/-- The string sprintf with format percent-i produces for a nonnegative pid:
its decimal digits, as a character list, with no trailing newline. -/
def sprintfPid (pid : Nat) : List Char :=
  (Nat.repr pid).data

/-- MK_MAX_PID_LEN from mk_utils.c line 38: the size of the pidstr buffer. -/
def MK_MAX_PID_LEN : Nat := 10

/-- Bytes sprintf stores into pidstr for a nonnegative pid: the decimal digits
plus the terminating NUL byte. -/
def sprintfPidBytes (pid : Nat) : Nat :=
  (sprintfPid pid).length + 1

/-- The part of mk_utils_register_pid after the stale-file removal (lines
324-351 of mk_utils.c): open with O_WRONLY, O_CREAT, O_CLOEXEC and mode 0444,
take the non-blocking whole-file write lock, write the decimal pid, close the
descriptor, return 0.  Each failure closes the descriptor where the C does,
logs the corresponding mk_err and exits with EXIT_FAILURE. -/
def registerPidOpen (fl : Faults) (pid : Nat) (s : Sys) : RunResult :=
  if !fl.openOk then ⟨s, [LogEvent.errCannotOpenPidFile], Outcome.exit 1⟩
  else
    let oc := openCreate pid 0o444 s
    let fd := oc.2
    let lk := fcntlSetlk pid fd fl.lockOk oc.1
    if !lk.1 then ⟨closeFd pid fd lk.2, [LogEvent.errCannotSetLock], Outcome.exit 1⟩
    else
      let data := sprintfPid pid
      let wret := fl.writeRet.getD data.length
      let s4 := writeFd fd data wret lk.2
      if wret ≠ data.length then ⟨closeFd pid fd s4, [LogEvent.errCannotWritePid], Outcome.exit 1⟩
      else ⟨closeFd pid fd s4, [], Outcome.ret 0⟩

/-- mk_utils_register_pid (mk_utils.c lines 306-352): if stat reports a file
at the path, unlink it, exiting fatally when the unlink fails; then proceed
with open, lock, write and close. -/
def registerPid (fl : Faults) (pid : Nat) (s : Sys) : RunResult :=
  if statExists fl.statOk s then
    if fl.unlinkOk then registerPidOpen fl pid (unlinkPath s)
    else ⟨s, [LogEvent.errCannotRemoveOldPid], Outcome.exit 1⟩
  else registerPidOpen fl pid s

/-- mk_utils_remove_pid (mk_utils.c lines 355-361): unlink the path; when the
unlink fails (also when no file exists) log a warning; return 0 either way. -/
def removePid (unlinkOk : Bool) (s : Sys) : RunResult :=
  if s.dirent.isSome && unlinkOk then ⟨unlinkPath s, [], Outcome.ret 0⟩
  else ⟨s, [LogEvent.warnCannotDeletePidfile], Outcome.ret 0⟩

/-- Content of the file currently linked at the pid-file path, if any. -/
def pathContent (s : Sys) : Option (List Char) :=
  s.dirent.bind (fun i => (s.inodes[i]?).map Inode.content)

/-- Creation mode of the file currently linked at the pid-file path, if any. -/
def pathMode (s : Sys) : Option Nat :=
  s.dirent.bind (fun i => (s.inodes[i]?).map Inode.mode)

/-- The state of a process holding the pid-file lock: process 100 has run the
acquisition up to and including the write, so its pid file is linked at the
path, it holds the write lock on inode 0 and keeps descriptor (100, 0) open.
Built from the same primitives registerPidOpen composes, starting from the
empty filesystem. -/
def sysHolder : Sys :=
  let oc := openCreate 100 0o444 sysEmpty
  let lk := fcntlSetlk 100 oc.2 true oc.1
  writeFd oc.2 (sprintfPid 100) (sprintfPid 100).length lk.2

/-- A state whose single inode is write-locked by process 100, which keeps a
descriptor open on it. -/
def sysLocked : Sys :=
  ⟨[⟨[], 0o444⟩], some 0, [(0, 100)], [(100, 0)]⟩

/-- A state with a stale pid file at the path: some earlier process 99 left
its record behind, no locks, no open descriptors. -/
def sysStale : Sys :=
  ⟨[⟨sprintfPid 99, 0o444⟩], some 0, [], []⟩

/-- Per-process state relevant to mk_utils_set_daemon: the file-creation mask,
the working directory, whether the process leads a fresh session, and whether
the standard error and standard output streams are open. -/
structure DProc where
  umaskVal : Nat
  cwd : String
  sessionNew : Bool
  stderrOpen : Bool
  stdoutOpen : Bool
deriving DecidableEq

/-- Fault flags for one run of mk_utils_set_daemon: whether fork, setsid and
chdir succeed. -/
structure DFaults where
  forkOk : Bool
  setsidOk : Bool
  chdirOk : Bool
deriving DecidableEq

/-- Actions of the child process of mk_utils_set_daemon, in execution order. -/
inductive DAction
  | aUmask (m : Nat)
  | aSetsid (ok : Bool)
  | aChdir (dir : String) (ok : Bool)
  | aLog (e : LogEvent)
  | aCloseStderr
  | aCloseStdout
deriving DecidableEq

/-- Result of mk_utils_set_daemon: either the fork failed and the sole process
logged an error and exited with the given code, or the fork succeeded, the
parent exited with parentCode and the child ran the recorded actions, ending
in the given state, log and outcome. -/
inductive DaemonResult
  | forkFailed (log : List LogEvent) (code : Nat)
  | forked (parentCode : Nat) (child : DProc) (trace : List DAction)
      (log : List LogEvent) (out : Outcome)
deriving DecidableEq

/-- mk_utils_set_daemon (mk_utils.c lines 273-303): fork, with the parent
exiting EXIT_SUCCESS at once; the child sets umask to 0, calls setsid without
inspecting its result, changes directory to the root (exiting fatally on
failure), logs the background-mode info line, closes stderr and stdout, and
returns 0. -/
def setDaemon (fl : DFaults) (p : DProc) : DaemonResult :=
  if !fl.forkOk then DaemonResult.forkFailed [LogEvent.errForkFailed] 1
  else
    let c1 : DProc := { p with umaskVal := 0 }
    let c2 : DProc := if fl.setsidOk then { c1 with sessionNew := true } else c1
    let t2 : List DAction := [DAction.aUmask 0, DAction.aSetsid fl.setsidOk]
    if !fl.chdirOk then
      DaemonResult.forked 0 c2 (t2 ++ [DAction.aChdir "/" false, DAction.aLog LogEvent.errChdirFailed])
        [LogEvent.errChdirFailed] (Outcome.exit 1)
    else
      let c3 : DProc := { c2 with cwd := "/" }
      let c4 : DProc := { c3 with stderrOpen := false, stdoutOpen := false }
      DaemonResult.forked 0 c4
        (t2 ++ [DAction.aChdir "/" true, DAction.aLog LogEvent.infoBackgroundModeOn,
                DAction.aCloseStderr, DAction.aCloseStdout])
        [LogEvent.infoBackgroundModeOn] (Outcome.ret 0)

/-- Outcome of the process that continues after mk_utils_set_daemon: the sole
process when the fork failed, the child otherwise. -/
def daemonOut : DaemonResult → Outcome
  | DaemonResult.forkFailed _ c => Outcome.exit c
  | DaemonResult.forked _ _ _ _ o => o

/-- A sample foreground process state before daemonization. -/
def dproc0 : DProc := ⟨0o022, "/home/launch", false, true, true⟩

end MkCore
namespace MkCore

theorem sysWf_locks (s : Sys) (hwf : sysWf s = true) :
    ∀ l ∈ s.locks, l.1 < s.inodes.length := by
  simp only [sysWf, Bool.and_eq_true, List.all_eq_true, decide_eq_true_eq] at hwf
  exact hwf.1

theorem sysWf_fds (s : Sys) (hwf : sysWf s = true) :
    ∀ f ∈ s.fds, f.2 < s.inodes.length := by
  simp only [sysWf, Bool.and_eq_true, List.all_eq_true, decide_eq_true_eq] at hwf
  exact hwf.2

theorem heldByOther_fresh (pid : Nat) (s : Sys) (hwf : sysWf s = true) :
    heldByOther pid s.inodes.length s.locks = false := by
  have hL := sysWf_locks s hwf
  rw [heldByOther, List.any_eq_false]
  intro l hl hcontra
  have hlt : l.1 < s.inodes.length := hL l hl
  rcases Bool.and_eq_true _ _ |>.mp hcontra with ⟨he, _⟩
  have : l.1 = s.inodes.length := by simpa using he
  omega

theorem erase_fresh_fd (pid n : Nat) (fds : List (Nat × Nat))
    (h : ∀ f ∈ fds, f.2 < n) :
    (fds ++ [(pid, n)]).erase (pid, n) = fds := by
  rw [List.erase_append_right _ ?_]
  · simp
  · intro hmem
    exact absurd (h _ hmem) (by simp)

theorem filter_fresh_lock (pid n : Nat) (locks : List (Nat × Nat))
    (h : ∀ l ∈ locks, l.1 < n) :
    locks.filter (fun l => !(l.1 == n && l.2 == pid)) = locks := by
  rw [List.filter_eq_self]
  intro a ha
  have hlt := h a ha
  have hne : (a.1 == n) = false := by simpa using Nat.ne_of_lt hlt
  simp [hne]

theorem registerPidOpen_fresh (fl : Faults) (pid : Nat) (s : Sys)
    (hwf : sysWf s = true) (hd : s.dirent = none) (ho : fl.openOk = true) :
    registerPidOpen fl pid s =
      if fl.lockOk = false then
        ⟨⟨s.inodes ++ [⟨[], 0o444⟩], some s.inodes.length, s.locks, s.fds⟩,
         [LogEvent.errCannotSetLock], Outcome.exit 1⟩
      else if fl.writeRet.getD (sprintfPid pid).length = (sprintfPid pid).length then
        ⟨⟨s.inodes ++ [⟨sprintfPid pid, 0o444⟩], some s.inodes.length, s.locks, s.fds⟩,
         [], Outcome.ret 0⟩
      else
        ⟨⟨s.inodes ++
            [⟨(sprintfPid pid).take
                (min (fl.writeRet.getD (sprintfPid pid).length) (sprintfPid pid).length), 0o444⟩],
          some s.inodes.length, s.locks, s.fds⟩,
         [LogEvent.errCannotWritePid], Outcome.exit 1⟩ := by
  have hfd := sysWf_fds s hwf
  have hlk := sysWf_locks s hwf
  have hHeld := heldByOther_fresh pid s hwf
  have he : (s.fds ++ [(pid, s.inodes.length)]).erase (pid, s.inodes.length) = s.fds :=
    erase_fresh_fd pid s.inodes.length s.fds hfd
  have hf : s.locks.filter (fun l => !(l.1 == s.inodes.length && l.2 == pid)) = s.locks :=
    filter_fresh_lock pid s.inodes.length s.locks hlk
  cases hL : fl.lockOk with
  | false =>
      simp only [registerPidOpen, ho, Bool.not_true, Bool.false_eq_true, if_false,
        openCreate, hd, fcntlSetlk, hHeld, hL, Bool.not_false, if_true, closeFd,
        Bool.false_eq_true, if_false]
      simp [he, hf]
      intro a b hmem
      exact Or.inl (Nat.ne_of_lt (hlk (a, b) hmem))
  | true =>
      have hset : ∀ y : Inode, (s.inodes ++ [(⟨[], 0o444⟩ : Inode)]).set s.inodes.length y
          = s.inodes ++ [y] := by
        intro y
        rw [List.set_append_right _ _ (Nat.le_refl _)]
        simp
      have hfilt : (s.locks ++ [(s.inodes.length, pid)]).filter
          (fun l => !(l.1 == s.inodes.length && l.2 == pid)) = s.locks := by
        rw [List.filter_append, hf]
        simp
      by_cases hw : fl.writeRet.getD (sprintfPid pid).length = (sprintfPid pid).length
      · simp only [registerPidOpen, ho, Bool.not_true, Bool.false_eq_true, if_false,
          openCreate, hd, fcntlSetlk, hHeld, hL, writeFd, closeFd,
          List.getElem?_concat_length, hset, hfilt, he, hw]
        simp [min_self]
      · simp only [registerPidOpen, ho, Bool.not_true, Bool.false_eq_true, if_false,
          openCreate, hd, fcntlSetlk, hHeld, hL, writeFd, closeFd,
          List.getElem?_concat_length, hset, hfilt, he, hw]
        simp [hw]


theorem registerPid_fresh (fl : Faults) (pid : Nat) (s : Sys) (hd : s.dirent = none) :
    registerPid fl pid s = registerPidOpen fl pid s := by
  simp [registerPid, statExists, hd]

/-- Claim C3: on a path with no existing file, a fault-free acquire succeeds,
logs nothing, and leaves a file at the path created with mode 0444 whose
content is exactly the decimal digits of the calling pid, with no trailing
newline and no other bytes. -/
theorem registerPid_fresh_creates_pidfile (fl : Faults) (pid : Nat) (s : Sys)
    (hwf : sysWf s = true) (hd : s.dirent = none) (ho : fl.openOk = true)
    (hl : fl.lockOk = true) (hw : fl.writeRet = none) :
    (registerPid fl pid s).out = Outcome.ret 0 ∧
    (registerPid fl pid s).log = [] ∧
    pathContent (registerPid fl pid s).sys = some (sprintfPid pid) ∧
    pathMode (registerPid fl pid s).sys = some 0o444 := by
  rw [registerPid_fresh fl pid s hd, registerPidOpen_fresh fl pid s hwf hd ho]
  simp [hl, hw, pathContent, pathMode, List.getElem?_concat_length]

theorem registerPid_fresh_creates_pidfile_witness :
    (registerPid faultsOk 7 sysEmpty).out = Outcome.ret 0 ∧
    pathContent (registerPid faultsOk 7 sysEmpty).sys = some (sprintfPid 7) ∧
    pathMode (registerPid faultsOk 7 sysEmpty).sys = some 0o444 :=
  ⟨(registerPid_fresh_creates_pidfile faultsOk 7 sysEmpty (by decide) rfl rfl rfl rfl).1,
   (registerPid_fresh_creates_pidfile faultsOk 7 sysEmpty (by decide) rfl rfl rfl rfl).2.2.1,
   (registerPid_fresh_creates_pidfile faultsOk 7 sysEmpty (by decide) rfl rfl rfl rfl).2.2.2⟩

/-- Claim C4: when a file pre-exists at the path and stat reports it, acquire
unlinks it and then behaves exactly as it does on the same system with the
file already absent; the pre-existing content is arbitrary here, so it is
never inspected.  If the unlink fails, acquire logs the removal error and
exits with failure status. -/
theorem registerPid_preexisting_deletes (fl : Faults) (pid : Nat) (s : Sys)
    (hd : s.dirent.isSome = true) (hs : fl.statOk = true) :
    (fl.unlinkOk = true →
        registerPid fl pid s = registerPid fl pid (unlinkPath s)) ∧
    (fl.unlinkOk = false →
        registerPid fl pid s = ⟨s, [LogEvent.errCannotRemoveOldPid], Outcome.exit 1⟩) := by
  constructor
  · intro hu
    simp [registerPid, statExists, hd, hs, hu, unlinkPath]
  · intro hu
    simp [registerPid, statExists, hd, hs, hu]

theorem registerPid_preexisting_deletes_witness :
    registerPid faultsOk 7 sysStale = registerPid faultsOk 7 (unlinkPath sysStale) ∧
    registerPid ⟨true, false, true, true, none⟩ 7 sysStale =
      ⟨sysStale, [LogEvent.errCannotRemoveOldPid], Outcome.exit 1⟩ :=
  ⟨(registerPid_preexisting_deletes faultsOk 7 sysStale rfl rfl).1 rfl,
   (registerPid_preexisting_deletes ⟨true, false, true, true, none⟩ 7 sysStale rfl rfl).2 rfl⟩

/-- Claim C5: the modelled F_SETLK request is non-blocking, failing
immediately with no state change when another process holds the lock; and
when the lock request in acquire fails, acquire closes the handle it opened
(the final descriptor table is the initial one), logs the lock error, and
exits with failure status, with no retry. -/
theorem lock_failure_closes_and_exits (pid ino : Nat) (ok : Bool) (s t : Sys) (fl : Faults)
    (hHeld : heldByOther pid ino s.locks = true)
    (hwf : sysWf t = true) (hd : t.dirent = none)
    (ho : fl.openOk = true) (hl : fl.lockOk = false) :
    fcntlSetlk pid ino ok s = (false, s) ∧
    registerPid fl pid t =
      ⟨⟨t.inodes ++ [⟨[], 0o444⟩], some t.inodes.length, t.locks, t.fds⟩,
       [LogEvent.errCannotSetLock], Outcome.exit 1⟩ := by
  constructor
  · simp [fcntlSetlk, hHeld]
  · rw [registerPid_fresh fl pid t hd, registerPidOpen_fresh fl pid t hwf hd ho]
    simp [hl]

theorem lock_failure_closes_and_exits_witness :
    fcntlSetlk 200 0 true sysLocked = (false, sysLocked) ∧
    registerPid ⟨true, true, true, false, none⟩ 200 sysEmpty =
      ⟨⟨[⟨[], 0o444⟩], some 0, [], []⟩, [LogEvent.errCannotSetLock], Outcome.exit 1⟩ := by
  have h := lock_failure_closes_and_exits 200 0 true sysLocked sysEmpty
      ⟨true, true, true, false, none⟩ (by decide) (by decide) rfl rfl rfl
  exact ⟨h.1, h.2⟩

/-- Claim C6: on a fresh path the pid is formatted as its decimal digits and
written in full, and the run returns 0; when the write reports fewer bytes
than requested, acquire closes the handle (descriptor table restored), logs
the write error, and exits with failure status. -/
theorem short_write_fatal (pid n : Nat) (s : Sys)
    (hwf : sysWf s = true) (hd : s.dirent = none)
    (hn : n ≠ (sprintfPid pid).length) :
    registerPid ⟨true, true, true, true, none⟩ pid s =
      ⟨⟨s.inodes ++ [⟨sprintfPid pid, 0o444⟩], some s.inodes.length, s.locks, s.fds⟩,
       [], Outcome.ret 0⟩ ∧
    registerPid ⟨true, true, true, true, some n⟩ pid s =
      ⟨⟨s.inodes ++ [⟨(sprintfPid pid).take (min n (sprintfPid pid).length), 0o444⟩],
        some s.inodes.length, s.locks, s.fds⟩,
       [LogEvent.errCannotWritePid], Outcome.exit 1⟩ := by
  constructor
  · rw [registerPid_fresh _ pid s hd, registerPidOpen_fresh _ pid s hwf hd rfl]
    simp
  · rw [registerPid_fresh _ pid s hd, registerPidOpen_fresh _ pid s hwf hd rfl]
    simp [hn]

theorem short_write_fatal_witness :
    registerPid ⟨true, true, true, true, none⟩ 7 sysEmpty =
      ⟨⟨[⟨sprintfPid 7, 0o444⟩], some 0, [], []⟩, [], Outcome.ret 0⟩ ∧
    registerPid ⟨true, true, true, true, some 0⟩ 7 sysEmpty =
      ⟨⟨[⟨[], 0o444⟩], some 0, [], []⟩, [LogEvent.errCannotWritePid], Outcome.exit 1⟩ := by
  have h := short_write_fatal 7 0 sysEmpty (by decide) rfl (by decide)
  exact ⟨h.1, h.2⟩

/-- Claim C8: release unlinks the path, so after a successful acquire the file
no longer exists; when the unlink fails, including on a non-existent path,
release logs a warning and still returns 0, never exiting the process. -/
theorem removePid_behavior (s : Sys) (ok : Bool) :
    (s.dirent.isSome = true → ok = true →
        removePid ok s = ⟨unlinkPath s, [], Outcome.ret 0⟩ ∧
        (removePid ok s).sys.dirent = none) ∧
    ((s.dirent = none ∨ ok = false) →
        removePid ok s = ⟨s, [LogEvent.warnCannotDeletePidfile], Outcome.ret 0⟩) ∧
    (removePid ok s).out = Outcome.ret 0 := by
  refine ⟨?_, ?_, ?_⟩
  · intro h1 h2
    constructor
    · simp [removePid, h1, h2]
    · simp [removePid, h1, h2, unlinkPath]
  · rintro (h | h) <;> simp [removePid, h]
  · rw [removePid]
    split <;> rfl

theorem removePid_behavior_witness :
    removePid true (registerPid faultsOk 7 sysEmpty).sys =
      ⟨unlinkPath (registerPid faultsOk 7 sysEmpty).sys, [], Outcome.ret 0⟩ ∧
    (removePid true (registerPid faultsOk 7 sysEmpty).sys).sys.dirent = none ∧
    removePid true sysEmpty = ⟨sysEmpty, [LogEvent.warnCannotDeletePidfile], Outcome.ret 0⟩ :=
  ⟨((removePid_behavior (registerPid faultsOk 7 sysEmpty).sys true).1 (by decide) rfl).1,
   ((removePid_behavior (registerPid faultsOk 7 sysEmpty).sys true).1 (by decide) rfl).2,
   (removePid_behavior sysEmpty true).2.1 (Or.inl rfl)⟩

/-- Claim C7: when the fork succeeds the parent exits with status 0 and the
child, in order, sets the file-creation mask to 0, starts a new session,
changes directory to the root, emits exactly the one background-mode info
line, closes stderr and stdout, and returns 0; fork failure and
working-directory failure exit with failure status. -/
theorem setDaemon_behavior (p : DProc) (fl : DFaults) :
    (fl.forkOk = true → fl.setsidOk = true → fl.chdirOk = true →
      setDaemon fl p =
        DaemonResult.forked 0 ⟨0, "/", true, false, false⟩
          [DAction.aUmask 0, DAction.aSetsid true, DAction.aChdir "/" true,
           DAction.aLog LogEvent.infoBackgroundModeOn, DAction.aCloseStderr,
           DAction.aCloseStdout]
          [LogEvent.infoBackgroundModeOn] (Outcome.ret 0)) ∧
    (fl.forkOk = false →
      setDaemon fl p = DaemonResult.forkFailed [LogEvent.errForkFailed] 1) ∧
    (fl.forkOk = true → fl.chdirOk = false →
      setDaemon fl p =
        DaemonResult.forked 0
          ⟨0, p.cwd, (fl.setsidOk || p.sessionNew), p.stderrOpen, p.stdoutOpen⟩
          [DAction.aUmask 0, DAction.aSetsid fl.setsidOk, DAction.aChdir "/" false,
           DAction.aLog LogEvent.errChdirFailed]
          [LogEvent.errChdirFailed] (Outcome.exit 1)) := by
  refine ⟨?_, ?_, ?_⟩
  · intro h1 h2 h3
    simp [setDaemon, h1, h2, h3]
  · intro h1
    simp [setDaemon, h1]
  · intro h1 h3
    cases h2 : fl.setsidOk <;> simp [setDaemon, h1, h2, h3]

theorem setDaemon_behavior_witness :
    setDaemon ⟨true, true, true⟩ dproc0 =
      DaemonResult.forked 0 ⟨0, "/", true, false, false⟩
        [DAction.aUmask 0, DAction.aSetsid true, DAction.aChdir "/" true,
         DAction.aLog LogEvent.infoBackgroundModeOn, DAction.aCloseStderr,
         DAction.aCloseStdout]
        [LogEvent.infoBackgroundModeOn] (Outcome.ret 0) ∧
    setDaemon ⟨false, true, true⟩ dproc0 =
      DaemonResult.forkFailed [LogEvent.errForkFailed] 1 ∧
    setDaemon ⟨true, true, false⟩ dproc0 =
      DaemonResult.forked 0 ⟨0, "/home/launch", true, true, true⟩
        [DAction.aUmask 0, DAction.aSetsid true, DAction.aChdir "/" false,
         DAction.aLog LogEvent.errChdirFailed]
        [LogEvent.errChdirFailed] (Outcome.exit 1) :=
  ⟨(setDaemon_behavior dproc0 ⟨true, true, true⟩).1 rfl rfl rfl,
   (setDaemon_behavior dproc0 ⟨false, true, true⟩).2.1 rfl,
   (setDaemon_behavior dproc0 ⟨true, true, false⟩).2.2 rfl rfl⟩

/-- Claim C10: the child never inspects the setsid result: for either outcome
of setsid the child runs every remaining step and returns 0 whenever the fork
and the directory change succeed, and a non-success outcome is only ever
caused by a fork or directory-change failure. -/
theorem setDaemon_setsid_result_ignored (p : DProc) (b : Bool) :
    (setDaemon ⟨true, b, true⟩ p =
        DaemonResult.forked 0 ⟨0, "/", (b || p.sessionNew), false, false⟩
          [DAction.aUmask 0, DAction.aSetsid b, DAction.aChdir "/" true,
           DAction.aLog LogEvent.infoBackgroundModeOn, DAction.aCloseStderr,
           DAction.aCloseStdout]
          [LogEvent.infoBackgroundModeOn] (Outcome.ret 0)) ∧
    (∀ fl : DFaults, daemonOut (setDaemon fl p) ≠ Outcome.ret 0 →
        fl.forkOk = false ∨ fl.chdirOk = false) := by
  constructor
  · cases b <;> simp [setDaemon]
  · intro fl h
    by_cases h1 : fl.forkOk
    · by_cases h3 : fl.chdirOk
      · exfalso
        apply h
        cases h2 : fl.setsidOk <;> simp [setDaemon, daemonOut, h1, h2, h3]
      · exact Or.inr (by simpa using h3)
    · exact Or.inl (by simpa using h1)

theorem setDaemon_setsid_result_ignored_witness :
    setDaemon ⟨true, false, true⟩ dproc0 =
      DaemonResult.forked 0 ⟨0, "/", false, false, false⟩
        [DAction.aUmask 0, DAction.aSetsid false, DAction.aChdir "/" true,
         DAction.aLog LogEvent.infoBackgroundModeOn, DAction.aCloseStderr,
         DAction.aCloseStdout]
        [LogEvent.infoBackgroundModeOn] (Outcome.ret 0) ∧
    ((⟨false, true, true⟩ : DFaults).forkOk = false ∨
      (⟨false, true, true⟩ : DFaults).chdirOk = false) :=
  ⟨(setDaemon_setsid_result_ignored dproc0 false).1,
   (setDaemon_setsid_result_ignored dproc0 false).2 ⟨false, true, true⟩ (by decide)⟩

/-- Claim C1, code-bug evidence: a fault-free acquire from the empty
filesystem returns 0, but in the final state the calling process has no open
descriptor at all and holds no lock: the close on the success path released
the lock-holding descriptor, where the claim requires it to stay open for
the process lifetime. -/
theorem acquire_success_closes_lock_descriptor :
    (registerPid faultsOk 42 sysEmpty).out = Outcome.ret 0 ∧
    (registerPid faultsOk 42 sysEmpty).sys.fds = [] ∧
    (registerPid faultsOk 42 sysEmpty).sys.locks = [] ∧
    pathContent (registerPid faultsOk 42 sysEmpty).sys = some (sprintfPid 42) := by
  decide

/-- Claim C2, code-bug evidence: sysHolder is the reachable state in which
process 100 holds the write lock with its pid file linked at the path; a
fault-free acquire by process 200 from that state nevertheless returns 0,
after unlinking the file of process 100 and re-creating the path on a fresh
inode now containing the digits of 200, while process 100 still holds its
lock on the orphaned inode. -/
theorem second_acquire_succeeds_and_clobbers :
    sysHolder = ⟨[⟨sprintfPid 100, 0o444⟩], some 0, [(0, 100)], [(100, 0)]⟩ ∧
    heldByOther 200 0 sysHolder.locks = true ∧
    (registerPid faultsOk 200 sysHolder).out = Outcome.ret 0 ∧
    pathContent (registerPid faultsOk 200 sysHolder).sys = some (sprintfPid 200) ∧
    (registerPid faultsOk 200 sysHolder).sys.locks = [(0, 100)] := by
  decide

/-- Claim C9, code-bug evidence: the largest signed 32-bit pid has ten
decimal digits, so sprintf stores eleven bytes counting the terminating NUL,
one past the end of the MK_MAX_PID_LEN sized pidstr buffer. -/
theorem sprintf_overflows_pidstr_for_max_pid :
    sprintfPidBytes 2147483647 = 11 ∧
    MK_MAX_PID_LEN < sprintfPidBytes 2147483647 ∧
    (2147483647 : Nat) < 2 ^ 31 := by
  decide

end MkCore
